import Mathlib

/-!
Verification development for the `kommo-command-love-bali` event bridge.

The Python sources under `src/kommo_command` (handler manager, incoming lead
handler, incoming message handler, message catalog, Firestore session service)
and `src/kommo_lang_select/models/session.py` (the session model re-exported by
`kommo_command.models`) are embedded shallowly below:

* dictionaries become association lists, Python `datetime` values become
  `Int` microsecond timestamps, and a `str.strip`/`upper`/`replace` pipeline
  becomes the corresponding `List Char` pipeline;
* fallible external collaborators (Firestore, the Kommo CRM REST client, the
  Love Bali passport API, the realtime store) are environment records whose
  fields give the outcome of each call site, and handler bodies are translated
  statement by statement, with each Python `try`/`except` becoming an explicit
  `match` on the collaborator outcome;
* handler side effects are recorded in an action trace so that theorems can
  speak about which calls were attempted and in which order.

`kommo_command/types.py` is not present in the source tree (only its importers
are), so the enums it must define (`AppLanguage`, `AppState`, the main-menu
bot identifiers) are modelled from the specification where noted.
-/

namespace KommoCommand

/-- Python-level exception value: we only track an error message string. -/
inductive PyErr where
  | err (msg : String)
  | attributeError
  | pydanticError
  deriving DecidableEq, Repr

/-- Open metadata value (`Dict[str, Any]` entries used by the handlers). -/
inductive MetaVal where
  | vstr (s : String)
  | vbool (b : Bool)
  | vnull
  deriving DecidableEq, Repr

/-- `Command` enum from `kommo_lang_select/types.py` (re-used by
`kommo_command`): the active top-level menu context. -/
inductive Command where
  | MAIN_MENU
  | LANG_SELECT
  | LOVE_BALI
  | SIGAPURA
  | CHAT_OPERATOR
  deriving DecidableEq, Repr

/-- `.value` of the `Command` enum members. -/
def Command.value : Command → String
  | .MAIN_MENU => "Main Menu"
  | .LANG_SELECT => "Lang Select"
  | .LOVE_BALI => "Love Bali"
  | .SIGAPURA => "SigaPura"
  | .CHAT_OPERATOR => "Chat Operator"

/-- `Command(value)` constructor lookup: the enum member whose value equals the
given string, if any. -/
def Command.fromValue (s : String) : Option Command :=
  if s = "Main Menu" then some .MAIN_MENU
  else if s = "Lang Select" then some .LANG_SELECT
  else if s = "Love Bali" then some .LOVE_BALI
  else if s = "SigaPura" then some .SIGAPURA
  else if s = "Chat Operator" then some .CHAT_OPERATOR
  else none

/-- `COMMAND_LIST` from `kommo_lang_select/types.py`: list of command label
strings checked against user messages. -/
def COMMAND_LIST : List String :=
  [Command.MAIN_MENU.value, Command.LANG_SELECT.value, Command.LOVE_BALI.value,
   Command.SIGAPURA.value, Command.CHAT_OPERATOR.value]

/-- Modelled from the spec: `AppLanguage` lives in `kommo_command/types.py`,
which is absent from the source tree.  The language codes are the two-letter
codes the lead handler's `detect_language` produces ("EN" for English, "ID"
for Indonesian) and the message catalog is keyed by exactly these two
members. -/
inductive AppLanguage where
  | ENGLISH
  | INDONESIAN
  deriving DecidableEq, Repr

/-- `.value` of the `AppLanguage` enum members (modelled from the spec). -/
def AppLanguage.value : AppLanguage → String
  | .ENGLISH => "EN"
  | .INDONESIAN => "ID"

/-- `AppLanguage(cleaned)` constructor lookup used by `_normalize_language`. -/
def AppLanguage.fromValue (s : String) : Option AppLanguage :=
  if s = "EN" then some .ENGLISH
  else if s = "ID" then some .INDONESIAN
  else none

/-- Modelled from the spec: `AppState` lives in the missing
`kommo_command/types.py`; the spec gives the string-valued states `INITIAL`
and `AWAITING_PASSPORT_NUMBER` carried in the payload's `state` field. -/
inductive AppState where
  | INITIAL
  | AWAITING_PASSPORT_NUMBER
  deriving DecidableEq, Repr

/-- `.value` of the `AppState` enum members (modelled from the spec). -/
def AppState.value : AppState → String
  | .INITIAL => "INITIAL"
  | .AWAITING_PASSPORT_NUMBER => "AWAITING_PASSPORT_NUMBER"

/-- Bot identifiers.  `LANG_SELECT_BOT_ID` and `REPLY_CUSTOM_BOT_ID` are the
constants of `kommo_lang_select/types.py`; the two main-menu identifiers are
modelled from the spec ("two distinct bot identifiers keyed by language"),
their concrete numeric values being absent from the source tree — only their
distinctness is ever used below. -/
def LANG_SELECT_BOT_ID : Nat := 66624

/-- Reply bot identifier (`BotID.REPLY_CUSTOM_BOT_ID`). -/
def REPLY_CUSTOM_BOT_ID : Nat := 64729

/-- Modelled from the spec: English main-menu bot id (value not in src). -/
def MAIN_MENU_EN_BOT_ID : Nat := 1

/-- Modelled from the spec: non-English main-menu bot id (value not in src). -/
def MAIN_MENU_ID_BOT_ID : Nat := 2

/-! ## Python string primitives

Python `str.strip`, `str.upper`, `str.replace(x, "")` modelled on `List Char`
(ASCII-faithful; the passport and language inputs the claims exercise are
ASCII apart from the flag-emoji selector literals, which are only ever
compared for equality). -/

/-- The whitespace characters removed by Python `str.strip()`. -/
def isPySpace (c : Char) : Bool :=
  c = ' ' || c = '\t' || c = '\n' || c = '\x0d' || c = '\x0b' || c = '\x0c'

/-- Python `str.strip()`: drop leading and trailing whitespace. -/
def pyStrip (s : List Char) : List Char :=
  ((s.dropWhile isPySpace).reverse.dropWhile isPySpace).reverse

/-- Python `str.upper()` restricted to ASCII case mapping. -/
def pyUpper (s : List Char) : List Char :=
  s.map Char.toUpper

/-- Python `str.strip()` on `String` values. -/
def pyStripStr (s : String) : String :=
  String.mk (pyStrip s.data)

/-- Python `str.upper()` on `String` values. -/
def pyUpperStr (s : String) : String :=
  String.mk (pyUpper s.data)

/-- Decimal digit value of a character, if it is a digit. -/
def pyDigit? (c : Char) : Option Nat :=
  if '0' ≤ c && c ≤ '9' then some (c.toNat - '0'.toNat) else none

/-- Parse a non-empty all-digit character list as a natural number. -/
def parseNatList (l : List Char) : Option Nat :=
  if l = [] then none
  else
    l.foldl
      (fun acc c =>
        match acc, pyDigit? c with
        | some a, some d => some (10 * a + d)
        | _, _ => none)
      (some 0)

/-- Python `int(s)` for the plain decimal strings the handlers meet
(optionally sign-prefixed digits; anything else raises `ValueError`,
modelled as `none`). -/
def pyParseInt (s : String) : Option Int :=
  match s.data with
  | '-' :: rest => (parseNatList rest).map (fun n => -(n : Int))
  | l => (parseNatList l).map (fun n => (n : Int))

/-! ## Message catalog (`kommo_command/messages.py`) -/

/-- `MessageKey` enum: identifiers for localized user-facing messages. -/
inductive MessageKey where
  | PASSPORT_PROMPT
  | PASSPORT_INVALID
  | PASSPORT_ERROR
  | PASSPORT_NOT_FOUND
  | PASSPORT_FOUND
  deriving DecidableEq, Repr

/-- `DEFAULT_LANGUAGE = AppLanguage.ENGLISH`. -/
def DEFAULT_LANGUAGE : AppLanguage := .ENGLISH

/-- The `_MESSAGES` registry: message identifier → (language → template). -/
def MESSAGES : List (MessageKey × List (AppLanguage × String)) :=
  [ (.PASSPORT_PROMPT,
      [(.ENGLISH, "Please enter your passport number"),
       (.INDONESIAN, "Silakan masukkan nomor paspor Anda")]),
    (.PASSPORT_INVALID,
      [(.ENGLISH, "Invalid passport number format"),
       (.INDONESIAN, "Format nomor paspor tidak valid")]),
    (.PASSPORT_ERROR,
      [(.ENGLISH, "An error occurred while processing your passport number. Please try again later."),
       (.INDONESIAN, "Terjadi kesalahan saat memproses nomor paspor Anda. Silakan coba lagi nanti.")]),
    (.PASSPORT_NOT_FOUND,
      [(.ENGLISH, "Passport number not found in the database"),
       (.INDONESIAN, "Nomor paspor tidak ditemukan dalam database")]),
    (.PASSPORT_FOUND,
      [(.ENGLISH, "Passport found.\n\nVoucher Code:\n\x7bcode_voucher\x7d\n\nGuest Name:\n\x7bguest_name\x7d\n\nArrival Date:\n\x7barrival_date\x7d\n\nExpired Date:\n\x7bexpired_date\x7d"),
       (.INDONESIAN, "Paspor ditemukan.\n\nKode Voucher:\n\x7bcode_voucher\x7d\n\nNama Tamu:\n\x7bguest_name\x7d\n\nTanggal Kedatangan:\n\x7barrival_date\x7d\n\nTanggal Kedaluwarsa:\n\x7bexpired_date\x7d")]) ]

/-- Association-list lookup mirroring `dict.get`. -/
def lookupAssoc {α β : Type} [DecidableEq α] : List (α × β) → α → Option β
  | [], _ => none
  | (k, v) :: rest, key => if k = key then some v else lookupAssoc rest key

/-- The `language` argument of `get_message`: an `AppLanguage`, a raw string,
or Python `None`. -/
inductive LangArg where
  | lang (l : AppLanguage)
  | str (s : String)
  | pynone
  deriving DecidableEq, Repr

/-- `_normalize_language`: coerce the incoming language argument to a known
`AppLanguage`, defaulting to English. -/
def normalizeLanguage : LangArg → AppLanguage
  | .lang l => l
  | .str s =>
      match AppLanguage.fromValue (pyUpperStr (pyStripStr s)) with
      | some l => l
      | none => DEFAULT_LANGUAGE
  | .pynone => DEFAULT_LANGUAGE

/-- `get_message`: localized message for the key, falling back from the
requested language to the default language to the first registered
translation; raises (`.error`) when the key has no entry in `_MESSAGES`
(and on the dead `next(iter({}))` of an empty per-key table). -/
def get_message (key : MessageKey) (language : LangArg) : Except PyErr String :=
  match lookupAssoc MESSAGES key with
  | none => .error (.err "No message configured for key")
  | some byLanguage =>
      let normalized := normalizeLanguage language
      match lookupAssoc byLanguage normalized with
      | some message => .ok message
      | none =>
          match lookupAssoc byLanguage DEFAULT_LANGUAGE with
          | some defaultMessage => .ok defaultMessage
          | none =>
              match byLanguage with
              | [] => .error (.err "StopIteration")
              | (_, first) :: _ => .ok first

/-- The per-key translation table of `_MESSAGES` (empty for an unregistered
key); used to state the fallback-chain property of `get_message`. -/
def catalogFor (key : MessageKey) : List (AppLanguage × String) :=
  (lookupAssoc MESSAGES key).getD []

/-! ## Passport normalization and validation
(`IncomingMessageHandler.normalize_passport_number` / `is_valid_passport_number`
and `PASSPORT_ALLOWED_PATTERN = ^[A-Z0-9]{6,12}$`). -/

/-- Character class `[A-Z0-9]` of `PASSPORT_ALLOWED_PATTERN`. -/
def isPassportChar (c : Char) : Bool :=
  ('A' ≤ c && c ≤ 'Z') || ('0' ≤ c && c ≤ '9')

/-- Matcher for a repetition `p{lo,hi}` anchored at both ends of its input:
consume the whole input, requiring every character to satisfy `p` and the
total count to lie between `lo` and `hi`. -/
def matchRepeat (p : Char → Bool) (lo hi : Nat) : List Char → Bool
  | [] => lo = 0
  | c :: rest => p c && 0 < hi && matchRepeat p (lo - 1) (hi - 1) rest

/-- The portion of the input that Python's `$` (without `re.MULTILINE`)
anchors against: `$` matches at the end of the string and also just before a
newline at the end of the string, and since `[A-Z0-9]` can never consume a
`'\n'`, a match of `^[A-Z0-9]{6,12}$` covers the input up to one optional
trailing newline. -/
def passportBody (s : List Char) : List Char :=
  if s.getLast? = some '\n' then s.dropLast else s

/-- `PASSPORT_ALLOWED_PATTERN.match(s)` as a boolean test: the repetition
must cover the whole input except possibly one trailing newline, which
Python's `$` permits. -/
def passportPatternMatch (s : List Char) : Bool :=
  matchRepeat isPassportChar 6 12 (passportBody s)

/-- `normalize_passport_number`: `None` on falsy input, else
`strip().upper().replace(" ", "").replace("-", "")`, with a final
`or None` collapsing an empty result. -/
def normalize_passport_number (userMessage : List Char) : Option (List Char) :=
  if userMessage = [] then none
  else
    let normalized :=
      (pyUpper (pyStrip userMessage)).filter (fun c => !(c = ' ' || c = '-'))
    if normalized = [] then none else some normalized

/-- `is_valid_passport_number(user_message, normalized=...)`: pick the
candidate (raw normalization or the already-normalized input), reject falsy
candidates, then match the passport pattern. -/
def is_valid_passport_number (normalized : Bool) (userMessage : List Char) : Bool :=
  let candidate : Option (List Char) :=
    if normalized then (if userMessage = [] then none else some userMessage)
    else normalize_passport_number userMessage
  match candidate with
  | none => false
  | some c => passportPatternMatch c

/-! ## Session model (`kommo_lang_select/models/session.py`, re-exported as
`kommo_command.models.session`).  `datetime` values are `Int` microsecond
timestamps; one hour is `3600000000` microseconds. -/

/-- Microseconds in one hour (`timedelta(hours=1)`). -/
def MICROS_PER_HOUR : Int := 3600000000

/-- `SessionModel`: one conversation's state. -/
structure SessionModel where
  session_id : String
  entity_id : Option Int := none
  language : Option String := none
  command : Option Command := none
  created_at : Int
  updated_at : Int
  expires_at : Option Int := none
  metadata : List (String × MetaVal) := []
  is_active : Bool := true
  deriving DecidableEq, Repr

/-- `session.set_language(lang)`: set language and refresh `updated_at`. -/
def SessionModel.setLanguage (s : SessionModel) (lang : String) (now : Int) : SessionModel :=
  { s with language := some lang, updated_at := now }

/-- Value stored under `entity_id` in a Firestore session document. -/
inductive EntityVal where
  | int (n : Int)
  | str (s : String)
  deriving DecidableEq, Repr

/-- Value stored under `command` in a Firestore session document: either the
enum's string value or a leftover enum object. -/
inductive CmdVal where
  | str (s : String)
  | enumC (c : Command)
  deriving DecidableEq, Repr

/-- Value stored under a datetime field: a Firestore timestamp object
(anything with `.timestamp()`) or an ISO-8601 string; both carry the same
instant at microsecond storage precision. -/
inductive TimeVal where
  | dt (t : Int)
  | iso (t : Int)
  deriving DecidableEq, Repr

/-- A `sessions/{id}` Firestore document as `to_firestore_dict` produces and
`from_firestore_dict` consumes. -/
structure SessionDoc where
  session_id : String
  entity_id : Option EntityVal := none
  language : Option String := none
  command : Option CmdVal := none
  created_at : Option TimeVal := none
  updated_at : Option TimeVal := none
  expires_at : Option TimeVal := none
  metadata : List (String × MetaVal) := []
  is_active : Bool := true
  deriving DecidableEq, Repr

/-- `SessionModel.to_firestore_dict`: `model_dump` with datetimes kept as
datetime objects and the `Command` enum replaced by its string value. -/
def to_firestore_dict (s : SessionModel) : SessionDoc :=
  { session_id := s.session_id
    entity_id := s.entity_id.map .int
    language := s.language
    command := s.command.map (fun c => .str c.value)
    created_at := some (.dt s.created_at)
    updated_at := some (.dt s.updated_at)
    expires_at := s.expires_at.map .dt
    metadata := s.metadata
    is_active := s.is_active }

/-- Decode one datetime field of `from_firestore_dict` (timestamp object or
ISO string; both yield the carried instant). -/
def decodeTime (v : Option TimeVal) (dflt : Int) : Int :=
  match v with
  | some (.dt t) => t
  | some (.iso t) => t
  | none => dflt

/-- `SessionModel.from_firestore_dict`: datetimes decoded from timestamp
objects or ISO strings (absent fields fall back to the model's
`default_factory`, i.e. `now`); a truthy string `command` parsed through the
`Command` enum with a `ValueError` fallback to `None`; a truthy string
`entity_id` coerced to `int` with a `ValueError` fallback to `None`.  A falsy
(empty-string) `command` or `entity_id` is left in place and then rejected by
pydantic field validation (`.error`). -/
def from_firestore_dict (now : Int) (d : SessionDoc) : Except PyErr SessionModel :=
  let commandDecoded : Except PyErr (Option Command) :=
    match d.command with
    | none => .ok none
    | some (.enumC c) => .ok (some c)
    | some (.str v) =>
        if v = "" then .error .pydanticError
        else .ok (Command.fromValue v)
  let entityDecoded : Except PyErr (Option Int) :=
    match d.entity_id with
    | none => .ok none
    | some (.int n) => .ok (some n)
    | some (.str v) =>
        if v = "" then .error .pydanticError
        else .ok (pyParseInt v)
  match commandDecoded, entityDecoded with
  | .error e, _ => .error e
  | _, .error e => .error e
  | .ok command, .ok entity_id =>
      .ok { session_id := d.session_id
            entity_id := entity_id
            language := d.language
            command := command
            created_at := decodeTime d.created_at now
            updated_at := decodeTime d.updated_at now
            expires_at := d.expires_at.map (fun v => decodeTime (some v) now)
            metadata := d.metadata
            is_active := d.is_active }

/-- `SessionCreateRequest`. -/
structure SessionCreateRequest where
  entity_id : Option Int := none
  language : Option String := none
  command : Option Command := none
  expires_in_hours : Option Int := some 1
  metadata : List (String × MetaVal) := []
  deriving DecidableEq, Repr

/-- `SessionCreateRequest.to_session_model`: fresh session with defaulted
`created_at`/`updated_at` timestamps (`now`), a generated id, `is_active`
defaulting to `True`, and `expires_at = now + expires_in_hours` hours when a
duration is given. -/
def to_session_model (r : SessionCreateRequest) (now : Int) (freshId : String) : SessionModel :=
  { session_id := freshId
    entity_id := r.entity_id
    language := r.language
    command := r.command
    created_at := now
    updated_at := now
    expires_at := r.expires_in_hours.map (fun h => now + h * MICROS_PER_HOUR)
    metadata := r.metadata
    is_active := true }

/-- `SessionUpdateRequest`. -/
structure SessionUpdateRequest where
  language : Option String := none
  command : Option Command := none
  metadata : Option (List (String × MetaVal)) := none
  is_active : Option Bool := none
  expires_in_hours : Option Int := none
  deriving DecidableEq, Repr

/-- Python `dict.update`: right-biased union of two association lists. -/
def dictUpdate (base updates : List (String × MetaVal)) : List (String × MetaVal) :=
  (base.filter (fun kv => lookupAssoc updates kv.1 = none)) ++ updates

/-- `FirestoreService.update_session` over a pure document store snapshot
(`store`): fetch the document (`None` when absent), parse it, apply the
request's `language` / `metadata` / `is_active` / `expires_in_hours` fields —
the source never reads `update_request.command` — refresh `updated_at`, and
return the in-memory session (alongside the partial `update_data` written to
Firestore, which we do not model further).  Parse failures and backend errors
re-raise. -/
def update_session (store : String → Option SessionDoc) (now : Int)
    (session_id : String) (update_request : SessionUpdateRequest) :
    Except PyErr (Option SessionModel) :=
  match store session_id with
  | none => .ok none
  | some doc =>
      match from_firestore_dict now doc with
      | .error e => .error e
      | .ok session0 =>
          let session1 :=
            match update_request.language with
            | some l => { session0 with language := some l }
            | none => session0
          let session2 :=
            match update_request.metadata with
            | some m => { session1 with metadata := dictUpdate session1.metadata m }
            | none => session1
          let session3 :=
            match update_request.is_active with
            | some b => { session2 with is_active := b }
            | none => session2
          let session4 :=
            match update_request.expires_in_hours with
            | some h => { session3 with expires_at := some (now + h * MICROS_PER_HOUR) }
            | none => session3
          .ok (some { session4 with updated_at := now })

/-! ## Handler Manager (`kommo_command/handlers/handler_manager.py`)

A registered handler is summarized by its Python object identity (`hid`),
the outcome of its `can_handle` call (which may raise) and the outcome of its
`handle` call (which may raise).  `process_event` returns the trace of
`handle` invocations: one `(hid, outcome)` pair per executed handler. -/

instance {ε α : Type} [DecidableEq ε] [DecidableEq α] : DecidableEq (Except ε α) :=
  fun a b =>
    match a, b with
    | .ok x, .ok y =>
        match decEq x y with
        | isTrue h => isTrue (by rw [h])
        | isFalse h => isFalse (fun hh => h (Except.ok.inj hh))
    | .error x, .error y =>
        match decEq x y with
        | isTrue h => isTrue (by rw [h])
        | isFalse h => isFalse (fun hh => h (Except.error.inj hh))
    | .ok _, .error _ => isFalse (fun hh => Except.noConfusion hh)
    | .error _, .ok _ => isFalse (fun hh => Except.noConfusion hh)

/-- One registered handler: identity plus the behaviour of its two methods on
the event being dispatched. -/
structure PyHandler where
  hid : Nat
  canHandle : Except PyErr Bool
  handleRes : Except PyErr Unit
  deriving DecidableEq, Repr

/-- The first loop of `process_event`: walk `self.handlers` in registration
order, skip the handler that *is* the default, call `can_handle` inside
`try`/`except` (an exception is logged and the handler contributes nothing),
and collect the handlers that answered `True`. -/
def collectMatching (dflt : Option PyHandler) : List PyHandler → List PyHandler
  | [] => []
  | h :: rest =>
      if (match dflt with | some d => h.hid == d.hid | none => false) then
        collectMatching dflt rest
      else
        match h.canHandle with
        | .ok true => h :: collectMatching dflt rest
        | .ok false => collectMatching dflt rest
        | .error _ => collectMatching dflt rest

/-- The second loop of `process_event`: call `handle` on each capable handler
inside `try`/`except`; an exception is logged and the loop continues with the
remaining handlers. -/
def runHandlers : List PyHandler → List (Nat × Except PyErr Unit)
  | [] => []
  | h :: rest => (h.hid, h.handleRes) :: runHandlers rest

/-- `HandlerManager.process_event`: the capable list is the default handler
(when registered, unconditionally) followed by the matching non-default
handlers; when that list is empty the dispatch is a no-op; otherwise every
capable handler's `handle` runs, failures isolated per handler. -/
def process_event (handlers : List PyHandler) (dflt : Option PyHandler) :
    List (Nat × Except PyErr Unit) :=
  let nonDefault := collectMatching dflt handlers
  let capable := (match dflt with | some d => [d] | none => []) ++ nonDefault
  if capable.isEmpty then [] else runHandlers capable

/-- Declarative image of the first loop: the non-default handlers whose
`can_handle` returned `True`, in registration order. -/
def matchedNonDefault (excl : Option Nat) (handlers : List PyHandler) : List PyHandler :=
  handlers.filter (fun h =>
    (match excl with | some i => h.hid != i | none => true) &&
      h.canHandle == Except.ok true)

/-- Declarative image of the executed set: the default handler (if any)
followed by the matching non-default handlers. -/
def capableHandlers (handlers : List PyHandler) (dflt : Option PyHandler) : List PyHandler :=
  (match dflt with | some d => [d] | none => []) ++
    matchedNonDefault (dflt.map (·.hid)) handlers

theorem collectMatching_eq_filter (dflt : Option PyHandler) (handlers : List PyHandler) :
    collectMatching dflt handlers = matchedNonDefault (dflt.map (·.hid)) handlers := by
  induction handlers with
  | nil => rfl
  | cons h rest ih =>
      cases dflt with
      | none =>
          simp only [collectMatching, matchedNonDefault, Option.map_none', List.filter_cons]
          cases hc : h.canHandle with
          | ok b =>
              cases b with
              | true => simpa [matchedNonDefault, hc] using congrArg (h :: ·) ih
              | false => simpa [matchedNonDefault, hc] using ih
          | error e => simpa [matchedNonDefault, hc] using ih
      | some d =>
          simp only [collectMatching, matchedNonDefault, Option.map_some', List.filter_cons]
          by_cases hd : h.hid = d.hid
          · simpa [matchedNonDefault, hd] using ih
          · cases hc : h.canHandle with
            | ok b =>
                cases b with
                | true => simpa [matchedNonDefault, hd, hc] using congrArg (h :: ·) ih
                | false => simpa [matchedNonDefault, hd, hc] using ih
            | error e => simpa [matchedNonDefault, hd, hc] using ih

theorem runHandlers_eq_map (handlers : List PyHandler) :
    runHandlers handlers = handlers.map (fun h => (h.hid, h.handleRes)) := by
  induction handlers with
  | nil => rfl
  | cons h rest ih => simp [runHandlers, ih]

theorem process_event_eq_map (handlers : List PyHandler) (dflt : Option PyHandler) :
    process_event handlers dflt =
      (capableHandlers handlers dflt).map (fun h => (h.hid, h.handleRes)) := by
  unfold process_event capableHandlers
  rw [collectMatching_eq_filter]
  by_cases hcap :
      ((match dflt with | some d => [d] | none => []) ++
        matchedNonDefault (dflt.map (·.hid)) handlers).isEmpty
  · simp only [hcap, if_true]
    rw [List.isEmpty_iff] at hcap
    simp [hcap]
  · simp only [hcap, if_false]
    exact runHandlers_eq_map _

/-! ## Event payloads shared by the two event handlers -/

/-- The fields a handler reads from a dict payload via `event_data.get`. -/
structure EventPayload where
  entity_id : Option EntityVal := none
  messages : Option String := none
  language : Option String := none
  state : Option String := none
  deriving DecidableEq, Repr

/-- An event's data as seen by `handle`: Python `None`, a non-dict value, or
a structured dict. -/
inductive PyData where
  | pynone
  | nondict
  | dict (p : EventPayload)
  deriving DecidableEq, Repr

/-- The Python value held by the `entity_id` variable after the
string-to-int coercion block. -/
inductive EntObj where
  | pyint (n : Int)
  | pystr (s : String)
  | pynone
  deriving DecidableEq, Repr

/-- The coercion block: a string `entity_id` is converted with `int(...)`
(`ValueError` lowers it to `None`); a falsy value (absent key, empty string)
skips the conversion; integers pass through unchanged. -/
def coerceEntity : Option EntityVal → EntObj
  | none => .pynone
  | some (.int n) => .pyint n
  | some (.str s) =>
      if s = "" then .pystr ""
      else match pyParseInt s with
        | some n => .pyint n
        | none => .pynone

/-- Python truthiness of the coerced `entity_id` (`if entity_id:`). -/
def EntObj.truthy : EntObj → Bool
  | .pyint n => n != 0
  | .pystr s => s != ""
  | .pynone => false

/-- The entity id used for the session lookup: defined exactly when the
coerced value is truthy (a nonzero int after coercion). -/
def entityForLookup : EntObj → Option Int
  | .pyint n => if n = 0 then none else some n
  | _ => none

/-- `event_data.get('messages', '').strip() if event_data.get('messages')
else ''`: empty string for a falsy value, else the stripped text. -/
def extractMessages (p : EventPayload) : String :=
  match p.messages with
  | none => ""
  | some m => if m = "" then "" else pyStripStr m

/-- `str(e)` for a raised exception, as annotated into metadata. -/
def pyErrStr : PyErr → String
  | .err m => m
  | .attributeError => "AttributeError"
  | .pydanticError => "ValidationError"

/-! ## Incoming-Lead Handler (`kommo_command/handlers/incoming_lead_handler.py`) -/

/-- The Lead audit record (`models/lead.py`), restricted to the fields the
claims inspect. -/
structure LeadRec where
  source_path : String
  created_at : Int
  updated_at : Int
  processed : Bool := false
  metadata : List (String × MetaVal) := []
  deriving DecidableEq, Repr

/-- `LeadModel.mark_as_processed`: set `processed` and refresh
`updated_at`. -/
def markAsProcessed (ld : LeadRec) (now : Int) : LeadRec :=
  { ld with processed := true, updated_at := now }

/-- Side-effect trace entries of the lead handler. -/
inductive LAction where
  | sessionLookup (entity : Int)
  | launchBot (botId : Nat)
  | createSession (s : SessionModel)
  | saveSession (s : SessionModel)
  | updateCustomFields (message : String)
  | launchReplyBot
  | saveLead (ld : LeadRec)
  | deleteRealtime (path : String)
  deriving DecidableEq, Repr

/-- Collaborator outcomes for one run of the lead handler's `handle`. -/
structure LeadEnv where
  getLatestSession : Except PyErr (Option SessionModel)
  kommoAvailable : Bool
  getEntityType : Except PyErr String
  launchBot : Nat → Except PyErr Unit
  createSessionWrite : Except PyErr Unit
  fsWrite : String → Except PyErr Unit
  rtDelete : Except PyErr Bool
  updateCustomFields : Except PyErr Bool

/-- `BaseHandler.save_to_firestore`: the write is attempted and every
exception is caught, yielding `False`. -/
def save_to_firestore (env : LeadEnv) (collection : String) : Bool :=
  match env.fsWrite collection with
  | .ok _ => true
  | .error _ => false

/-- `BaseHandler.delete_realtime_data`: the delete is attempted and every
exception is caught, yielding `False`. -/
def delete_realtime_data (env : LeadEnv) : Bool :=
  match env.rtDelete with
  | .ok b => b
  | .error _ => false

/-- `detect_language`: the two flag-emoji selector literals. -/
def detect_language (message : String) : Option String :=
  if message = "🇮🇩 Bahasa" then some "ID"
  else if message = "🇬🇧 English" then some "EN"
  else none

/-- `is_command`: membership in `COMMAND_LIST`. -/
def is_command (userMessage : String) : Bool :=
  COMMAND_LIST.contains userMessage

/-- Metadata failure annotation of the bootstrap `except` branch. -/
def bootstrapFailMeta (e : PyErr) : List (String × MetaVal) :=
  [("salesbot_launched", .vbool false), ("salesbot_error", .vstr (pyErrStr e))]

/-- The no-session bootstrap (`handle` lines 128-189): inside one `try`,
fetch the lead entity-type code, launch the language-selection salesbot,
build a `SessionCreateRequest(entity_id, language=None, command=MAIN_MENU,
expires_in_hours=24)` and persist it through
`FirestoreService.create_session` (`to_session_model` plus a document
write).  Any exception lands in the `except` branch, which annotates the
lead metadata with `salesbot_launched=False` and the error text.  Returns
the action trace and the metadata additions. -/
def leadBootstrap (env : LeadEnv) (now : Int) (entity : Int) (freshSid : String) :
    List LAction × List (String × MetaVal) :=
  match env.getEntityType with
  | .error e => ([], bootstrapFailMeta e)
  | .ok _ =>
      match env.launchBot LANG_SELECT_BOT_ID with
      | .error e => ([.launchBot LANG_SELECT_BOT_ID], bootstrapFailMeta e)
      | .ok _ =>
          let request : SessionCreateRequest :=
            { entity_id := some entity, language := none,
              command := some .MAIN_MENU, expires_in_hours := some 24 }
          let created := to_session_model request now freshSid
          match env.createSessionWrite with
          | .error e => ([.launchBot LANG_SELECT_BOT_ID], bootstrapFailMeta e)
          | .ok _ =>
              ([.launchBot LANG_SELECT_BOT_ID, .createSession created],
               [("new_session_created", .vbool true),
                ("new_session_id", .vstr freshSid)])

/-- Session resolution (`handle` lines 110-201): look up the latest active
session for the entity; a found session is attached to the lead metadata; no
session triggers the bootstrap, but only when the Kommo service is
configured; a lookup exception is caught by the surrounding `except` and the
run continues without a session. -/
def leadSessionPhase (env : LeadEnv) (now : Int) (entity : Int) (freshSid : String) :
    List LAction × List (String × MetaVal) × Option SessionModel :=
  match env.getLatestSession with
  | .error _ => ([.sessionLookup entity], [], none)
  | .ok (some s) =>
      ([.sessionLookup entity],
       [("session_id", .vstr s.session_id),
        ("session_language", match s.language with | some l => .vstr l | none => .vnull)],
       some s)
  | .ok none =>
      if env.kommoAvailable then
        let (tr, md) := leadBootstrap env now entity freshSid
        (.sessionLookup entity :: tr, md, none)
      else
        ([.sessionLookup entity], [], none)

/-- Message branch (`handle` lines 205-305), entered when the message is
non-empty and a session was found: no session language yet triggers the
selector-string detection (its own `try`/`except`; a detected language is set
on the session and the session document rewritten); an already-set language
plus a recognized command pushes the message into a CRM custom field and, on
a truthy update result, launches the reply bot — these two CRM calls are not
wrapped in a local `try` and their exceptions propagate. -/
def leadMessagePhase (env : LeadEnv) (now : Int) (entityObj : EntObj)
    (messages : String) (s : SessionModel) :
    Except PyErr (List LAction × List (String × MetaVal)) :=
  let languageBlank :=
    match s.language with
    | none => true
    | some l => l = "" || pyStripStr l = ""
  if languageBlank then
    if messages = "🇮🇩 Bahasa" || messages = "🇬🇧 English" then
      match detect_language messages with
      | some detected =>
          let s' := s.setLanguage detected now
          let _ := save_to_firestore env "sessions"
          .ok ([.saveSession s'], [("detected_language", .vstr detected)])
      | none => .ok ([], [])
    else .ok ([], [])
  else
    if is_command messages then
      if env.kommoAvailable && entityObj != .pynone then
        match env.updateCustomFields with
        | .error e => .error e
        | .ok result =>
            if result then
              match env.getEntityType with
              | .error e => .error e
              | .ok _ =>
                  match env.launchBot REPLY_CUSTOM_BOT_ID with
                  | .error e => .error e
                  | .ok _ =>
                      .ok ([.updateCustomFields messages, .launchReplyBot], [])
            else .ok ([.updateCustomFields messages], [])
      else .ok ([], [])
    else .ok ([], [])

/-- The unconditional tail (`handle` lines 308-344): mark the lead processed,
persist it to the `leads` collection, and on success (only) attempt the
realtime-store deletion of the source payload. -/
def leadTail (env : LeadEnv) (ld : LeadRec) (now : Int) (path : String) : List LAction :=
  let ld' := markAsProcessed ld now
  let saveOk := save_to_firestore env "leads"
  .saveLead ld' :: (if saveOk then [(.deleteRealtime path)] else [])

/-- `IncomingLeadHandler.handle`: the whole body sits in a `try` whose
`except` logs and re-raises, so a propagated collaborator exception makes the
result `.error`; `.get` on a `None`/non-dict payload raises
`AttributeError`. -/
def lead_handle (env : LeadEnv) (now : Int) (path : String) (data : PyData)
    (freshSid : String) : Except PyErr (List LAction) :=
  match data with
  | .pynone => .error .attributeError
  | .nondict => .error .attributeError
  | .dict p =>
      let ld0 : LeadRec :=
        { source_path := path, created_at := now, updated_at := now,
          processed := false,
          metadata := [("handler", .vstr "IncomingLeadHandler"), ("processed_at", .vnull)] }
      let messages := extractMessages p
      let entityObj := coerceEntity p.entity_id
      let (trA, mdA, session) :=
        match entityForLookup entityObj with
        | some n => leadSessionPhase env now n freshSid
        | none => ([], [], none)
      let ld1 := { ld0 with metadata := dictUpdate ld0.metadata mdA }
      let phaseC : Except PyErr (List LAction × List (String × MetaVal)) :=
        if messages ≠ "" then
          match session with
          | some s => leadMessagePhase env now entityObj messages s
          | none => .ok ([], [])
        else .ok ([], [])
      match phaseC with
      | .error e => .error e
      | .ok (trC, mdC) =>
          let ld2 := { ld1 with metadata := dictUpdate ld1.metadata mdC }
          .ok (trA ++ trC ++ leadTail env ld2 now path)

/-! ## Incoming-Message Handler
(`kommo_command/handlers/incoming_message_handler.py`) -/

/-- Error raised by the Love Bali passport scan: a `LoveBaliAPIError`
carrying an optional HTTP status code, or an unexpected exception. -/
inductive ScanErr where
  | api (status : Option Int)
  | unexpected
  deriving DecidableEq, Repr

/-- The `data` object of a successful scan response. -/
structure ScanFields where
  code_voucher : Option String := none
  guest_name : Option String := none
  arrival_date : Option String := none
  expired_date : Option String := none
  deriving DecidableEq, Repr

/-- `str(data.get(k) or "-")`: falsy values default to `"-"`. -/
def fieldOrDash (v : Option String) : String :=
  match v with
  | none => "-"
  | some s => if s = "" then "-" else s

/-- Side-effect trace entries of the message handler. -/
inductive MAction where
  | sessionLookup
  | sendCustomField (message : String)
  | sendBot (botId : Nat)
  | scanPassport (passport : List Char)
  | updateSessionCmd (c : Command)
  | deleteRealtime (path : String)
  deriving DecidableEq, Repr

/-- Collaborator outcomes for one run of the message handler's `handle`. -/
structure MsgEnv where
  getActiveSession : Except PyErr (Option SessionModel)
  kommoAvailable : Bool
  loveBaliAvailable : Bool
  scan : Except ScanErr (Option ScanFields)
  updateCustomFields : Except PyErr Unit
  getEntityType : Except PyErr String
  launchBot : Nat → Except PyErr Unit
  updateSession : Except PyErr (Option SessionModel)
  rtDelete : Except PyErr Bool

/-- `IncomingMessageHandler.send_message`: without a Kommo service, skip
entirely; otherwise attempt the custom-field update (its own `try`, outcome
logged only) and then, in a second `try`, fetch the entity-type code and
launch the fixed reply bot (outcome logged only).  Never raises. -/
def send_message (env : MsgEnv) (message : String) : List MAction :=
  if env.kommoAvailable then
    let cfAttempt := [MAction.sendCustomField message]
    let _cfOutcome := env.updateCustomFields
    let botAttempt :=
      match env.getEntityType with
      | .error _ => []
      | .ok _ => [MAction.sendBot REPLY_CUSTOM_BOT_ID]
    cfAttempt ++ botAttempt
  else []

/-- `IncomingMessageHandler.show_main_menu`: pick the main-menu bot by
language (`"EN"` → English bot, anything else → the other bot) and, in one
`try`, fetch the entity-type code and launch it (outcome logged only).
Never raises. -/
def show_main_menu (env : MsgEnv) (language : String) : List MAction :=
  if env.kommoAvailable then
    let botId :=
      if language = AppLanguage.ENGLISH.value then MAIN_MENU_EN_BOT_ID
      else MAIN_MENU_ID_BOT_ID
    match env.getEntityType with
    | .error _ => []
    | .ok _ => [MAction.sendBot botId]
  else []

/-- `success_template.format(**message_params)` for the passport-found
templates: plain placeholder substitution.  On the catalog's fixed templates
with this complete parameter set the Python `format` call cannot raise, so
the `except (KeyError, ValueError)` fallback is dead and `isFound` is set. -/
def formatPassportFound (template : String) (params : ScanFields) : String :=
  ((((template.replace "\x7bcode_voucher\x7d" (fieldOrDash params.code_voucher)).replace
      "\x7bguest_name\x7d" (fieldOrDash params.guest_name)).replace
      "\x7barrival_date\x7d" (fieldOrDash params.arrival_date)).replace
      "\x7bexpired_date\x7d" (fieldOrDash params.expired_date))

/-- The `AWAITING_PASSPORT_NUMBER` branch of `handle` (lines 118-220):
normalize and validate the reply (invalid ⇒ localized invalid-format
message); with the Love Bali service available, scan the passport; an
`LoveBaliAPIError` with status 401/404 selects the not-found message, any
other error the generic error message; a success formats the found template
and sets `isFound`; the response (always non-empty here) is sent; finally,
on `session and isFound`, `update_session` is called with a
`SessionUpdateRequest(command=MAIN_MENU)` — its exception propagates — and a
returned session triggers the language-keyed main-menu bot. -/
def msgAwaitPhase (env : MsgEnv) (session : Option SessionModel)
    (userLang userMessages : String) : Except PyErr (List MAction) :=
  match normalize_passport_number userMessages.data with
  | none =>
      match get_message .PASSPORT_INVALID (.str userLang) with
      | .error e => .error e
      | .ok invalidMessage => .ok (send_message env invalidMessage)
  | some normalizedPassport =>
      if !is_valid_passport_number true normalizedPassport then
        match get_message .PASSPORT_INVALID (.str userLang) with
        | .error e => .error e
        | .ok invalidMessage => .ok (send_message env invalidMessage)
      else if !env.loveBaliAvailable then .ok []
      else
        let scanAttempt := [MAction.scanPassport normalizedPassport]
        match env.scan with
        | .ok dataOpt =>
            let params : ScanFields :=
              match dataOpt with
              | some d => d
              | none => {}
            match get_message .PASSPORT_FOUND (.str userLang) with
            | .error e => .error e
            | .ok successTemplate =>
                let responseMessage := formatPassportFound successTemplate params
                let sendPart :=
                  if responseMessage ≠ "" then send_message env responseMessage else []
                match session with
                | some _ =>
                    match env.updateSession with
                    | .error e => .error e
                    | .ok (some _) =>
                        .ok (scanAttempt ++ sendPart ++
                          [MAction.updateSessionCmd .MAIN_MENU] ++
                          show_main_menu env userLang)
                    | .ok none =>
                        .ok (scanAttempt ++ sendPart ++
                          [MAction.updateSessionCmd .MAIN_MENU])
                | none => .ok (scanAttempt ++ sendPart)
        | .error (.api status) =>
            let notFound := status = some 401 || status = some 404
            let errorMessage : Except PyErr String :=
              if notFound then get_message .PASSPORT_NOT_FOUND (.str userLang)
              else get_message .PASSPORT_ERROR (.str userLang)
            match errorMessage with
            | .error e => .error e
            | .ok msg =>
                .ok (scanAttempt ++ (if msg ≠ "" then send_message env msg else []))
        | .error .unexpected =>
            match get_message .PASSPORT_ERROR (.str userLang) with
            | .error e => .error e
            | .ok msg =>
                .ok (scanAttempt ++ (if msg ≠ "" then send_message env msg else []))

/-- `event_data.get('language', AppLanguage.ENGLISH.value)`. -/
def userLangOf (p : EventPayload) : String :=
  match p.language with
  | none => AppLanguage.ENGLISH.value
  | some l => l

/-- `event_data.get('state', AppState.INITIAL.value)`. -/
def appStateOf (p : EventPayload) : String :=
  match p.state with
  | none => AppState.INITIAL.value
  | some st => st

/-- The `INITIAL` branch of `handle` (lines 112-115): send the localized
passport prompt. -/
def msgInitialPart (env : MsgEnv) (userLang appState : String) :
    Except PyErr (List MAction) :=
  if appState = AppState.INITIAL.value then
    match get_message .PASSPORT_PROMPT (.str userLang) with
    | .error e => .error e
    | .ok customMessage => .ok (send_message env customMessage)
  else .ok []

/-- The guard around the `AWAITING_PASSPORT_NUMBER` branch of `handle`. -/
def msgAwaitingPart (env : MsgEnv) (session : Option SessionModel)
    (userLang userMessages appState : String) : Except PyErr (List MAction) :=
  if appState = AppState.AWAITING_PASSPORT_NUMBER.value then
    msgAwaitPhase env session userLang userMessages
  else .ok []

/-- Body of `handle` inside the `if entity_id:` block: look up the active
session (exceptions caught, lowered to `None`), run the `INITIAL` branch and
the `AWAITING_PASSPORT_NUMBER` branch, then attempt the realtime-store
deletion of the triggering payload inside a local `try` (failures logged
only). -/
def msg_handle_entity (env : MsgEnv) (path : String)
    (userLang appState userMessages : String) : Except PyErr (List MAction) :=
  let session :=
    match env.getActiveSession with
    | .ok s => s
    | .error _ => none
  match msgInitialPart env userLang appState with
  | .error e => .error e
  | .ok t1 =>
      match msgAwaitingPart env session userLang userMessages appState with
      | .error e => .error e
      | .ok t2 =>
          let _deleted :=
            match env.rtDelete with
            | .ok b => b
            | .error _ => false
          .ok (MAction.sessionLookup :: t1 ++ t2 ++ [MAction.deleteRealtime path])

/-- `IncomingMessageHandler.handle`: early-return on `None`/non-dict
payloads; extract `entity_id` (coerced), `messages`, `language` (defaulting
to English), `state` (defaulting to `INITIAL`); with a truthy entity id run
the state machine and the payload cleanup.  Without a truthy entity id the
state machine and the deletion are both skipped (the `else` branch only
logs).  The outer `except` re-raises. -/
def msg_handle (env : MsgEnv) (path : String) (data : PyData) :
    Except PyErr (List MAction) :=
  match data with
  | .pynone => .ok []
  | .nondict => .ok []
  | .dict p =>
      match entityForLookup (coerceEntity p.entity_id) with
      | none => .ok []
      | some _entity =>
          msg_handle_entity env path (userLangOf p) (appStateOf p) (extractMessages p)

/-! ## Spec-side predicates and concrete evaluation fixtures -/

/-- The bootstrap path of the lead handler raised exception `e` at one of
its three collaborator calls (entity-type fetch, bot launch, session
write). -/
def bootErr (env : LeadEnv) (e : PyErr) : Prop :=
  env.getEntityType = .error e ∨
  ((∃ et, env.getEntityType = .ok et) ∧
    env.launchBot LANG_SELECT_BOT_ID = .error e) ∨
  ((∃ et, env.getEntityType = .ok et) ∧
    env.launchBot LANG_SELECT_BOT_ID = .ok () ∧
    env.createSessionWrite = .error e)

/-- A one-document session store for evaluating `update_session`: session
`sess-1` is active with command `Lang Select` (the stored value the
passport-found path would have to advance to `Main Menu`). -/
def c1Store : String → Option SessionDoc := fun sid =>
  if sid = "sess-1" then
    some { session_id := "sess-1", entity_id := some (.int 500),
           language := some "EN", command := some (.str "Lang Select"),
           created_at := some (.dt 0), updated_at := some (.dt 0),
           expires_at := none, metadata := [], is_active := true }
  else none

/-- Lead-handler environment in which every collaborator call succeeds. -/
def allOkLeadEnv : LeadEnv :=
  { getLatestSession := .ok none, kommoAvailable := true,
    getEntityType := .ok "2", launchBot := fun _ => .ok (),
    createSessionWrite := .ok (), fsWrite := fun _ => .ok (),
    rtDelete := .ok true, updateCustomFields := .ok true }

/-- Lead-handler environment identical to `allOkLeadEnv` but with no Kommo
service configured. -/
def noKommoLeadEnv : LeadEnv :=
  { allOkLeadEnv with kommoAvailable := false }

/-- A first-contact payload: string entity id `"500"`, empty message. -/
def firstContactPayload : EventPayload :=
  { entity_id := some (.str "500"), messages := some "" }

/-- The session the all-success bootstrap creates at time `1000` with fresh
id `sid-9`. -/
def bootSession : SessionModel :=
  { session_id := "sid-9", entity_id := some 500, language := none,
    command := some .MAIN_MENU, created_at := 1000, updated_at := 1000,
    expires_at := some 86400001000, metadata := [], is_active := true }

/-- The lead record persisted by the all-success first-contact run. -/
def bootLead : LeadRec :=
  { source_path := "/incoming/l1", created_at := 1000, updated_at := 1000,
    processed := true,
    metadata := [("handler", .vstr "IncomingLeadHandler"), ("processed_at", .vnull),
                 ("new_session_created", .vbool true), ("new_session_id", .vstr "sid-9")] }

/-- The trace of the all-success first-contact run. -/
def bootTrace : List LAction :=
  [.sessionLookup 500, .launchBot LANG_SELECT_BOT_ID, .createSession bootSession,
   .saveLead bootLead, .deleteRealtime "/incoming/l1"]

/-- The lead record persisted by the no-Kommo first-contact run. -/
def noKommoLead : LeadRec :=
  { source_path := "/incoming/l1", created_at := 1000, updated_at := 1000,
    processed := true,
    metadata := [("handler", .vstr "IncomingLeadHandler"), ("processed_at", .vnull)] }

/-- The trace of the no-Kommo first-contact run: no bot launch and no
session creation, only the lookup, the audit write and the cleanup. -/
def noKommoTrace : List LAction :=
  [.sessionLookup 500, .saveLead noKommoLead, .deleteRealtime "/incoming/l1"]

/-- Message-handler environment in which every collaborator call succeeds
(the passport scan returns an empty `data` object). -/
def allOkMsgEnv : MsgEnv :=
  { getActiveSession := .ok none, kommoAvailable := true,
    loveBaliAvailable := true, scan := .ok none,
    updateCustomFields := .ok (), getEntityType := .ok "2",
    launchBot := fun _ => .ok (), updateSession := .ok none,
    rtDelete := .ok true }

/-- A message payload with no `entity_id` at all. -/
def noEntityPayload : EventPayload :=
  { messages := some "hello" }

/-- A message payload with entity id `7` in the default `INITIAL` state. -/
def initialStatePayload : EventPayload :=
  { entity_id := some (.int 7), messages := some "x" }

/-- The trace of the all-success `INITIAL`-state run of the message
handler. -/
def initialStateTrace : List MAction :=
  [.sessionLookup, .sendCustomField "Please enter your passport number",
   .sendBot REPLY_CUSTOM_BOT_ID, .deleteRealtime "/m"]

/-! ## Theorems -/

theorem matchRepeat_iff (p : Char → Bool) :
    ∀ (s : List Char) (lo hi : Nat),
      matchRepeat p lo hi s = true ↔
        lo ≤ s.length ∧ s.length ≤ hi ∧ s.all p = true := by
  intro s
  induction s with
  | nil =>
      intro lo hi
      simp [matchRepeat]
  | cons c rest ih =>
      intro lo hi
      simp [matchRepeat, ih]
      constructor
      · rintro ⟨⟨hc, hhi⟩, h1, h2, h3⟩
        exact ⟨h1, by omega, hc, h3⟩
      · rintro ⟨h1, h2, hc, h3⟩
        exact ⟨⟨hc, by omega⟩, h1, by omega, h3⟩

theorem mem_of_getLast?_eq {α : Type} {l : List α} {a : α}
    (h : l.getLast? = some a) : a ∈ l := by
  rcases List.mem_getLast?_eq_getLast (show a ∈ l.getLast? from h) with ⟨hne, heq⟩
  rw [heq]
  exact List.getLast_mem hne

theorem passportBody_length (s : List Char) :
    (passportBody s).length ≤ s.length ∧ s.length ≤ (passportBody s).length + 1 := by
  by_cases hl : s.getLast? = some '\n'
  · unfold passportBody
    rw [if_pos hl, List.length_dropLast]
    omega
  · unfold passportBody
    rw [if_neg hl]
    omega

theorem passportBody_eq_of_all (s : List Char) (hall : s.all isPassportChar = true) :
    passportBody s = s := by
  have hlast : s.getLast? ≠ some '\n' := by
    intro hcon
    have hmem := mem_of_getLast?_eq hcon
    have := List.all_eq_true.mp hall '\n' hmem
    exact absurd this (by decide)
  simp [passportBody, hlast]

theorem is_valid_passport_iff (s : List Char) :
    is_valid_passport_number true s = true ↔
      6 ≤ (passportBody s).length ∧ (passportBody s).length ≤ 12 ∧
        (passportBody s).all isPassportChar = true := by
  by_cases hs : s = []
  · subst hs
    decide
  · simp only [is_valid_passport_number, hs, if_false, if_neg hs]
    simpa [passportPatternMatch] using
      matchRepeat_iff isPassportChar (passportBody s) 6 12

/-- C7 (amended): the validator accepts a string exactly when, after
discarding the one trailing newline Python's `$` tolerates, it is 6 to 12
characters, each an uppercase letter or digit; every length-5 string and
every length-13 string of valid characters is rejected, lengths 6 and 12 of
valid characters accepted, and `"a1 b2-c3"` normalizes (trim, uppercase,
strip spaces and hyphens) to the acceptable `"A1B2C3"`. -/
theorem c7_passport_normalization_and_validation :
    (∀ s : List Char, s.getLast? ≠ some '\n' →
        (is_valid_passport_number true s = true ↔
          6 ≤ s.length ∧ s.length ≤ 12 ∧ s.all isPassportChar = true)) ∧
    (∀ s : List Char, s.getLast? = some '\n' →
        (is_valid_passport_number true s = true ↔
          6 ≤ s.dropLast.length ∧ s.dropLast.length ≤ 12 ∧
            s.dropLast.all isPassportChar = true)) ∧
    (∀ s : List Char, s.length = 5 → is_valid_passport_number true s = false) ∧
    (∀ s : List Char, s.length = 13 → s.all isPassportChar = true →
        is_valid_passport_number true s = false) ∧
    (∀ s : List Char, s.length = 6 → s.all isPassportChar = true →
        is_valid_passport_number true s = true) ∧
    (∀ s : List Char, s.length = 12 → s.all isPassportChar = true →
        is_valid_passport_number true s = true) ∧
    normalize_passport_number ("a1 b2-c3".data) = some ("A1B2C3".data) ∧
    is_valid_passport_number true ("A1B2C3".data) = true := by
  refine ⟨?_, ?_, ?_, ?_, ?_, ?_, by decide, by decide⟩
  · intro s hns
    have hbody : passportBody s = s := by simp [passportBody, hns]
    rw [is_valid_passport_iff, hbody]
  · intro s hlast
    have hbody : passportBody s = s.dropLast := by simp [passportBody, hlast]
    rw [is_valid_passport_iff, hbody]
  · intro s h5
    rcases hb : is_valid_passport_number true s with _ | _
    · rfl
    · have hlen := passportBody_length s
      exact absurd ((is_valid_passport_iff s).mp hb) (by omega)
  · intro s h13 hall
    rcases hb : is_valid_passport_number true s with _ | _
    · rfl
    · have hbody := passportBody_eq_of_all s hall
      have := (is_valid_passport_iff s).mp hb
      rw [hbody] at this
      exact absurd this (by omega)
  · intro s h6 hall
    have hbody := passportBody_eq_of_all s hall
    rw [is_valid_passport_iff, hbody]
    exact ⟨by omega, by omega, hall⟩
  · intro s h12 hall
    have hbody := passportBody_eq_of_all s hall
    rw [is_valid_passport_iff, hbody]
    exact ⟨by omega, by omega, hall⟩

/-- Counterexample to C7 as stated: `"A1B2C3\n-"` normalizes to
`"A1B2C3\n"` (`strip()` is a no-op because the string ends in a hyphen, and
only the hyphen is removed), and the source validator accepts that
7-character string — Python's `$` matches just before the trailing newline —
although one of its characters is not an uppercase letter or digit. -/
theorem c7_counterexample :
    normalize_passport_number ("A1B2C3\n-".data) = some ("A1B2C3\n".data) ∧
    is_valid_passport_number true ("A1B2C3\n".data) = true ∧
    ("A1B2C3\n".data).all isPassportChar = false := by
  decide

/-- Witness for C7 at concrete boundary inputs: length-5 and length-13
strings of valid characters are rejected, length-6 and length-12 accepted,
and a trailing newline is tolerated by the dollar anchor. -/
theorem c7_witness :
    is_valid_passport_number true ("AB123".data) = false ∧
    is_valid_passport_number true ("AB123456789CD".data) = false ∧
    is_valid_passport_number true ("AB1234".data) = true ∧
    is_valid_passport_number true ("AB1234567890".data) = true ∧
    is_valid_passport_number true ("A1B2C3\n".data) = true := by
  refine ⟨?_, ?_, ?_, ?_, ?_⟩
  · exact c7_passport_normalization_and_validation.2.2.1 _ (by decide)
  · exact c7_passport_normalization_and_validation.2.2.2.1 _ (by decide) (by decide)
  · exact c7_passport_normalization_and_validation.2.2.2.2.1 _ (by decide) (by decide)
  · exact c7_passport_normalization_and_validation.2.2.2.2.2.1 _ (by decide) (by decide)
  · exact (c7_passport_normalization_and_validation.2.1 _ (by decide)).mpr (by decide)

theorem get_message_ne_error (k : MessageKey) (lang : LangArg) (e : PyErr) :
    get_message k lang ≠ .error e := by
  cases k <;> cases hl : normalizeLanguage lang <;>
    simp [get_message, MESSAGES, lookupAssoc, hl, DEFAULT_LANGUAGE]

theorem get_message_ok (k : MessageKey) (lang : LangArg) :
    ∃ s, get_message k lang = .ok s := by
  rcases hg : get_message k lang with e | s
  · exact absurd hg (get_message_ne_error k lang e)
  · exact ⟨s, rfl⟩

/-- C8: for every registered message key and every language argument,
`get_message` returns a string without raising: the translation for the
requested (normalized) language when present, else the English default, else
the first available translation; it can raise only for a key with no
`_MESSAGES` entry — and every `MessageKey` has one. -/
theorem c8_get_message_registered_total :
    ∀ (k : MessageKey) (lang : LangArg),
      (lookupAssoc MESSAGES k).isSome = true ∧
      get_message k lang =
        .ok ((lookupAssoc (catalogFor k) (normalizeLanguage lang)).getD
              ((lookupAssoc (catalogFor k) DEFAULT_LANGUAGE).getD
                (((catalogFor k).head?.map Prod.snd).getD ""))) := by
  intro k lang
  cases k <;> cases hl : normalizeLanguage lang <;>
    exact ⟨by simp [MESSAGES, lookupAssoc],
      by simp [get_message, catalogFor, MESSAGES, lookupAssoc, hl, DEFAULT_LANGUAGE]⟩

/-- C10: `get_message`'s language argument is normalized case-insensitively
with surrounding whitespace ignored, and any unknown language value —
arbitrary strings or `None` — is silently coerced to the English default. -/
theorem c10_language_argument_coercion :
    (∀ k : MessageKey, get_message k (.str "en") = get_message k (.lang .ENGLISH)) ∧
    (∀ k : MessageKey, get_message k (.str " EN ") = get_message k (.lang .ENGLISH)) ∧
    (∀ k : MessageKey, get_message k .pynone = get_message k (.lang .ENGLISH)) ∧
    (∀ s : String, AppLanguage.fromValue (pyUpperStr (pyStripStr s)) = none →
        normalizeLanguage (.str s) = .ENGLISH) ∧
    (∀ k : MessageKey, ∀ s : String,
        AppLanguage.fromValue (pyUpperStr (pyStripStr s)) = none →
        get_message k (.str s) = get_message k (.lang .ENGLISH)) := by
  refine ⟨?_, ?_, ?_, ?_, ?_⟩
  · intro k; cases k <;> rfl
  · intro k; cases k <;> rfl
  · intro k; cases k <;> rfl
  · intro s h
    simp [normalizeLanguage, h, DEFAULT_LANGUAGE]
  · intro k s h
    cases k <;>
      simp [get_message, normalizeLanguage, h, DEFAULT_LANGUAGE, MESSAGES, lookupAssoc]

/-- Witness for C10: the unknown language string `"xx"` is coerced to the
English default by `get_message`. -/
theorem c10_witness :
    get_message .PASSPORT_PROMPT (.str "xx") =
      get_message .PASSPORT_PROMPT (.lang .ENGLISH) :=
  c10_language_argument_coercion.2.2.2.2 .PASSPORT_PROMPT "xx" (by decide)

theorem Command.fromValue_value (c : Command) : Command.fromValue c.value = some c := by
  cases c <;> rfl

theorem Command.value_ne_empty (c : Command) : c.value ≠ "" := by
  cases c <;> decide

/-- C9: serializing a session to its Firestore dictionary and reconstructing
it yields the same session — same `session_id`, `language`, `command` (the
enum survives the trip through its string value) and the same timestamps at
storage precision; in this embedding the whole record is reproduced
exactly. -/
theorem c9_session_storage_roundtrip :
    ∀ (s : SessionModel) (now : Int),
      from_firestore_dict now (to_firestore_dict s) = .ok s := by
  intro s now
  obtain ⟨sid, entity, langF, cmd, cAt, uAt, expF, meta, act⟩ := s
  simp only [to_firestore_dict, from_firestore_dict, decodeTime]
  cases cmd with
  | none =>
      cases entity <;> cases expF <;> simp [decodeTime]
  | some c =>
      have hv := Command.value_ne_empty c
      have hfv := Command.fromValue_value c
      cases entity <;> cases expF <;>
        simp [decodeTime, Option.map_some', hv, hfv]

theorem matchedNonDefault_hid_ne (i : Nat) (handlers : List PyHandler) :
    ∀ h ∈ matchedNonDefault (some i) handlers, h.hid ≠ i := by
  intro h hmem
  have := List.of_mem_filter hmem
  simp only [Bool.and_eq_true, bne_iff_ne, ne_eq] at this
  exact this.1

/-- C2: with exactly one registered default handler, `process_event` runs the
default's `handle` exactly once per event, without consulting its
`can_handle`; the executed trace is the default followed by the matching
non-default handlers in registration order; and with no default and no
match, no handler is executed. -/
theorem c2_default_handler_unconditional :
    (∀ (handlers : List PyHandler) (d : PyHandler),
        process_event handlers (some d) =
          (d.hid, d.handleRes) ::
            (matchedNonDefault (some d.hid) handlers).map (fun h => (h.hid, h.handleRes))) ∧
    (∀ (handlers : List PyHandler) (d : PyHandler) (c : Except PyErr Bool),
        process_event handlers (some { d with canHandle := c }) =
          process_event handlers (some d)) ∧
    (∀ (handlers : List PyHandler) (d : PyHandler),
        ((process_event handlers (some d)).map Prod.fst).count d.hid = 1) ∧
    (∀ handlers : List PyHandler,
        (∀ h ∈ handlers, h.canHandle ≠ .ok true) →
        process_event handlers none = []) := by
  have hmain : ∀ (handlers : List PyHandler) (d : PyHandler),
      process_event handlers (some d) =
        (d.hid, d.handleRes) ::
          (matchedNonDefault (some d.hid) handlers).map (fun h => (h.hid, h.handleRes)) := by
    intro handlers d
    rw [process_event_eq_map]
    simp [capableHandlers]
  refine ⟨hmain, ?_, ?_, ?_⟩
  · intro handlers d c
    rw [hmain, hmain]
  · intro handlers d
    rw [hmain]
    have hzero :
        ((matchedNonDefault (some d.hid) handlers).map
          (Prod.fst ∘ fun h => (h.hid, h.handleRes))).count d.hid = 0 := by
      rw [List.count_eq_zero]
      intro hmem
      rcases List.mem_map.mp hmem with ⟨h, hh, heq⟩
      exact matchedNonDefault_hid_ne d.hid handlers h hh (by simpa using heq)
    simp [List.map_map, List.count_cons, hzero]
  · intro handlers hnone
    rw [process_event_eq_map]
    have : matchedNonDefault none handlers = [] := by
      rw [matchedNonDefault, List.filter_eq_nil_iff]
      intro h hmem
      simp only [Bool.and_eq_true, beq_iff_eq]
      intro hcontr
      exact hnone h hmem hcontr.2
    simp [capableHandlers, this]

/-- Witness for C2: a concrete dispatch with a default handler whose
`can_handle` raises and a crashing non-default handler still yields the
expected executed trace, and the no-default/no-match dispatch is empty. -/
theorem c2_witness :
    process_event
        [⟨1, .error (.err "boom"), .ok ()⟩, ⟨2, .ok true, .error (.err "crash")⟩,
         ⟨3, .ok false, .ok ()⟩]
        (some ⟨1, .error (.err "boom"), .ok ()⟩) =
      [(1, .ok ()), (2, .error (.err "crash"))] ∧
    process_event [⟨7, .ok false, .ok ()⟩] none = [] := by
  constructor
  · rw [c2_default_handler_unconditional.1]
    decide
  · exact c2_default_handler_unconditional.2.2.2 _ (by decide)

/-- C3: an exception from a non-default handler's `can_handle` is caught and
treated as non-matching without stopping evaluation of the remaining
handlers; and `process_event` calls `handle` on every handler of the
executed list — each with its own outcome, so one handler's exception never
prevents a later handler's `handle` — and, being a total function of the
collaborator outcomes, never propagates a handler exception. -/
theorem c3_dispatch_failure_isolation :
    (∀ (dflt : Option PyHandler) (pre post : List PyHandler) (hbad : PyHandler)
        (e : PyErr), hbad.canHandle = .error e →
        collectMatching dflt (pre ++ hbad :: post) = collectMatching dflt (pre ++ post)) ∧
    (∀ (handlers : List PyHandler) (dflt : Option PyHandler),
        process_event handlers dflt =
          (capableHandlers handlers dflt).map (fun h => (h.hid, h.handleRes))) := by
  constructor
  · intro dflt pre post hbad e he
    induction pre with
    | nil =>
        simp only [List.nil_append, collectMatching]
        cases dflt with
        | none => simp [he]
        | some d =>
            by_cases hd : hbad.hid = d.hid
            · simp [hd]
            · simp [hd, he]
    | cons h rest ih =>
        simp only [List.cons_append, collectMatching]
        cases dflt with
        | none =>
            cases hc : h.canHandle with
            | ok b => cases b <;> simp [ih]
            | error e2 => simp [ih]
        | some d =>
            by_cases hd : h.hid = d.hid
            · simp [hd, ih]
            · cases hc : h.canHandle with
              | ok b => cases b <;> simp [hd, ih]
              | error e2 => simp [hd, ih]
  · exact process_event_eq_map

/-- Witness for C3: removing a concrete `can_handle`-raising handler from the
middle of the registration list leaves the matching set unchanged. -/
theorem c3_witness :
    collectMatching none
        [⟨1, .ok true, .ok ()⟩, ⟨2, .error (.err "raise"), .ok ()⟩,
         ⟨3, .ok true, .ok ()⟩] =
      collectMatching none [⟨1, .ok true, .ok ()⟩, ⟨3, .ok true, .ok ()⟩] :=
  c3_dispatch_failure_isolation.1 none [⟨1, .ok true, .ok ()⟩] [⟨3, .ok true, .ok ()⟩]
    ⟨2, .error (.err "raise"), .ok ()⟩ (.err "raise") rfl

/-- C1 (code bug): the passport-found path builds
`SessionUpdateRequest(command=Command.MAIN_MENU)` and calls `update_session`,
but `update_session` never reads the request's `command` field — it applies
only `language`, `metadata`, `is_active` and `expires_in_hours` — so the
returned (and stored) session keeps its previous command `LANG_SELECT`
instead of advancing to `MAIN_MENU`.  The claim's session-update property
fails at this input. -/
theorem c1_update_session_drops_command :
    update_session c1Store 1000 "sess-1" { command := some Command.MAIN_MENU } =
      .ok (some { session_id := "sess-1", entity_id := some 500,
                  language := some "EN", command := some Command.LANG_SELECT,
                  created_at := 0, updated_at := 1000, expires_at := none,
                  metadata := [], is_active := true }) ∧
    some Command.LANG_SELECT ≠ some Command.MAIN_MENU := by
  constructor
  · rfl
  · decide

theorem leadBootstrap_no_delete (env : LeadEnv) (now : Int) (entity : Int)
    (freshSid : String) (q : String) :
    LAction.deleteRealtime q ∉ (leadBootstrap env now entity freshSid).1 := by
  unfold leadBootstrap
  cases hg : env.getEntityType with
  | error e => simp
  | ok et =>
      cases hl : env.launchBot LANG_SELECT_BOT_ID with
      | error e => simp
      | ok u =>
          cases hc : env.createSessionWrite with
          | error e => simp
          | ok u2 => simp

theorem leadSessionPhase_no_delete (env : LeadEnv) (now : Int) (entity : Int)
    (freshSid : String) (q : String) :
    LAction.deleteRealtime q ∉ (leadSessionPhase env now entity freshSid).1 := by
  unfold leadSessionPhase
  cases hg : env.getLatestSession with
  | error e => simp
  | ok s =>
      cases s with
      | some sess => simp
      | none =>
          cases hk : env.kommoAvailable with
          | false => simp
          | true =>
              have hb := leadBootstrap_no_delete env now entity freshSid q
              rcases hp : leadBootstrap env now entity freshSid with ⟨tr, md⟩
              rw [hp] at hb
              simp [hp]
              exact fun hmem => hb hmem

theorem leadMessagePhase_no_delete (env : LeadEnv) (now : Int) (entityObj : EntObj)
    (messages : String) (s : SessionModel) (tr : List LAction)
    (md : List (String × MetaVal)) (q : String)
    (h : leadMessagePhase env now entityObj messages s = .ok (tr, md)) :
    LAction.deleteRealtime q ∉ tr := by
  unfold leadMessagePhase at h
  by_cases hlang :
      (match s.language with
       | none => true
       | some l => l = "" || pyStripStr l = "") = true
  · rw [if_pos hlang] at h
    by_cases hm : (messages = "🇮🇩 Bahasa" || messages = "🇬🇧 English") = true
    · rw [if_pos hm] at h
      cases hd : detect_language messages with
      | some detected =>
          rw [hd] at h
          simp only [Except.ok.injEq, Prod.mk.injEq] at h
          rw [← h.1]
          simp
      | none =>
          rw [hd] at h
          simp only [Except.ok.injEq, Prod.mk.injEq] at h
          rw [← h.1]
          simp
    · rw [if_neg hm] at h
      simp only [Except.ok.injEq, Prod.mk.injEq] at h
      rw [← h.1]
      simp
  · rw [if_neg hlang] at h
    by_cases hcmd : is_command messages = true
    · rw [if_pos hcmd] at h
      by_cases hk : (env.kommoAvailable && entityObj != EntObj.pynone) = true
      · rw [if_pos hk] at h
        cases hu : env.updateCustomFields with
        | error e => rw [hu] at h; cases h
        | ok result =>
            rw [hu] at h
            cases result with
            | false =>
                simp only [Bool.false_eq_true, if_false, Except.ok.injEq,
                  Prod.mk.injEq] at h
                rw [← h.1]
                simp
            | true =>
                simp only [if_true] at h
                cases hg : env.getEntityType with
                | error e => rw [hg] at h; cases h
                | ok et =>
                    rw [hg] at h
                    cases hl : env.launchBot REPLY_CUSTOM_BOT_ID with
                    | error e => rw [hl] at h; cases h
                    | ok u =>
                        rw [hl] at h
                        simp only [Except.ok.injEq, Prod.mk.injEq] at h
                        rw [← h.1]
                        simp
      · rw [if_neg hk] at h
        simp only [Except.ok.injEq, Prod.mk.injEq] at h
        rw [← h.1]
        simp
    · rw [if_neg hcmd] at h
      simp only [Except.ok.injEq, Prod.mk.injEq] at h
      rw [← h.1]
      simp

theorem leadTail_props (env : LeadEnv) (ld : LeadRec) (now : Int) (path : String) :
    LAction.saveLead (markAsProcessed ld now) ∈ leadTail env ld now path ∧
    (markAsProcessed ld now).processed = true ∧
    (LAction.deleteRealtime path ∈ leadTail env ld now path ↔
      save_to_firestore env "leads" = true) := by
  unfold leadTail markAsProcessed
  cases hs : save_to_firestore env "leads" <;> simp

/-- C4: every run of the lead handler that returns without an unexpected
exception marks the Lead processed and attempts its persistence, and the
realtime-store deletion of the source payload is attempted if and only if
that persistence succeeded. -/
theorem c4_lead_persist_then_cleanup :
    ∀ (env : LeadEnv) (now : Int) (path : String) (data : PyData)
      (freshSid : String) (tr : List LAction),
      lead_handle env now path data freshSid = .ok tr →
      (∃ ld : LeadRec, LAction.saveLead ld ∈ tr ∧ ld.processed = true) ∧
      (LAction.deleteRealtime path ∈ tr ↔ save_to_firestore env "leads" = true) := by
  intro env now path data freshSid tr h
  cases data with
  | pynone => cases h
  | nondict => cases h
  | dict p =>
      rw [lead_handle] at h
      rcases he : entityForLookup (coerceEntity p.entity_id) with _ | n
      all_goals rw [he] at h
      all_goals dsimp only at h
      · rcases hC : (if extractMessages p ≠ "" then
            (match (none : Option SessionModel) with
             | some s => leadMessagePhase env now (coerceEntity p.entity_id) (extractMessages p) s
             | none => .ok ([], []))
          else .ok ([], [])) with e | ⟨trC, mdC⟩
        · by_cases hm : extractMessages p ≠ "" <;> simp [hm] at hC
        · have htrC : trC = [] ∧ mdC = [] := by
            by_cases hm : extractMessages p ≠ "" <;> simp [hm] at hC <;> exact hC
          rw [hC] at h
          dsimp only at h
          simp only [Except.ok.injEq] at h
          subst h
          obtain ⟨hsave, hproc, hdel⟩ := leadTail_props env
            { source_path := path, created_at := now, updated_at := now,
              processed := false,
              metadata := dictUpdate (dictUpdate
                [("handler", .vstr "IncomingLeadHandler"), ("processed_at", .vnull)] []) mdC }
            now path
          rw [htrC.1]
          refine ⟨⟨_, by simpa using hsave, hproc⟩, ?_⟩
          simpa using hdel
      · rcases hp : leadSessionPhase env now n freshSid with ⟨trA, mdA, sess⟩
        rw [hp] at h
        dsimp only at h
        have hnodelA : LAction.deleteRealtime path ∉ trA := by
          have := leadSessionPhase_no_delete env now n freshSid path
          rw [hp] at this
          exact this
        rcases hC : (if extractMessages p ≠ "" then
            (match sess with
             | some s => leadMessagePhase env now (coerceEntity p.entity_id) (extractMessages p) s
             | none => .ok ([], []))
          else .ok ([], [])) with e | ⟨trC, mdC⟩
        · rw [hC] at h
          cases h
        · rw [hC] at h
          dsimp only at h
          simp only [Except.ok.injEq] at h
          subst h
          have hnodelC : LAction.deleteRealtime path ∉ trC := by
            by_cases hm : extractMessages p ≠ ""
            · rw [if_pos hm] at hC
              cases sess with
              | some s => exact leadMessagePhase_no_delete env now _ _ s trC mdC path hC
              | none =>
                  simp only [Except.ok.injEq, Prod.mk.injEq] at hC
                  rw [← hC.1]
                  simp
            · rw [if_neg hm] at hC
              simp only [Except.ok.injEq, Prod.mk.injEq] at hC
              rw [← hC.1]
              simp
          obtain ⟨hsave, hproc, hdel⟩ := leadTail_props env
            { source_path := path, created_at := now, updated_at := now,
              processed := false,
              metadata := dictUpdate (dictUpdate
                [("handler", .vstr "IncomingLeadHandler"), ("processed_at", .vnull)] mdA) mdC }
            now path
          constructor
          · exact ⟨_, by simp [hsave], hproc⟩
          · constructor
            · intro hmem
              rcases List.mem_append.mp hmem with h1 | h2
              · rcases List.mem_append.mp h1 with h1a | h1b
                · exact absurd h1a hnodelA
                · exact absurd h1b hnodelC
              · exact hdel.mp h2
            · intro hOk
              exact List.mem_append.mpr (Or.inr (hdel.mpr hOk))

/-- Witness for C4 at a concrete all-success first-contact run: the
persisted lead is marked processed and the source payload deletion is
attempted. -/
theorem c4_witness :
    (∃ ld : LeadRec, LAction.saveLead ld ∈ bootTrace ∧ ld.processed = true) ∧
    (LAction.deleteRealtime "/incoming/l1" ∈ bootTrace ↔
      save_to_firestore allOkLeadEnv "leads" = true) :=
  c4_lead_persist_then_cleanup allOkLeadEnv 1000 "/incoming/l1"
    (.dict firstContactPayload) "sid-9" bootTrace (by decide)

theorem leadBootstrap_spec (env : LeadEnv) (now : Int) (n : Int) (sid : String) :
    ((∃ et, env.getEntityType = .ok et) →
      LAction.launchBot LANG_SELECT_BOT_ID ∈ (leadBootstrap env now n sid).1) ∧
    (env.launchBot LANG_SELECT_BOT_ID = .ok () → env.createSessionWrite = .ok () →
      (∃ et, env.getEntityType = .ok et) →
      (leadBootstrap env now n sid).1 =
        [.launchBot LANG_SELECT_BOT_ID,
         .createSession (to_session_model
           { entity_id := some n, language := none, command := some .MAIN_MENU,
             expires_in_hours := some 24 } now sid)]) ∧
    (∀ e, bootErr env e → (leadBootstrap env now n sid).2 = bootstrapFailMeta e) := by
  unfold leadBootstrap
  cases hg : env.getEntityType with
  | error e0 =>
      refine ⟨?_, ?_, ?_⟩
      · rintro ⟨et, het⟩
        exact absurd het (by simp)
      · rintro h1 h2 ⟨et, het⟩
        exact absurd het (by simp)
      · intro e hbe
        rcases hbe with h | ⟨⟨et, het⟩, _⟩ | ⟨⟨et, het⟩, _, _⟩
        · rw [hg] at h
          injection h with h
          subst h
          rfl
        · rw [hg] at het; exact absurd het (by simp)
        · rw [hg] at het; exact absurd het (by simp)
  | ok et0 =>
      cases hl : env.launchBot LANG_SELECT_BOT_ID with
      | error e1 =>
          refine ⟨fun _ => by simp, ?_, ?_⟩
          · intro h1
            exact absurd h1 (by simp)
          · intro e hbe
            rcases hbe with h | ⟨_, hlb⟩ | ⟨_, hlb, _⟩
            · rw [hg] at h; exact absurd h (by simp)
            · rw [hl] at hlb
              injection hlb with hlb
              subst hlb
              rfl
            · rw [hl] at hlb; exact absurd hlb (by simp)
      | ok u1 =>
          cases hc : env.createSessionWrite with
          | error e2 =>
              refine ⟨fun _ => by simp, ?_, ?_⟩
              · intro h1 h2
                exact absurd h2 (by simp)
              · intro e hbe
                rcases hbe with h | ⟨_, hlb⟩ | ⟨_, _, hcw⟩
                · rw [hg] at h; exact absurd h (by simp)
                · rw [hl] at hlb; exact absurd hlb (by simp)
                · rw [hc] at hcw
                  injection hcw with hcw
                  subst hcw
                  rfl
          | ok u2 =>
              refine ⟨fun _ => by simp, fun _ _ _ => by simp, ?_⟩
              · intro e hbe
                rcases hbe with h | ⟨_, hlb⟩ | ⟨_, _, hcw⟩
                · rw [hg] at h; exact absurd h (by simp)
                · rw [hl] at hlb; exact absurd hlb (by simp)
                · rw [hc] at hcw; exact absurd hcw (by simp)

/-- C6 (amended): for every event whose coerced `entity_id` is truthy, whose
session lookup reports no active session, and whose handler has a Kommo
service configured, the handler runs the bootstrap: the language-selection
bot launch is attempted (once the entity-type fetch succeeded) and, when the
launch and the session write succeed, a session with `language=None`,
`command=MAIN_MENU`, `is_active=True` and a 24-hour expiry is created; a
bootstrap exception is caught and annotated into the persisted Lead's
metadata (`salesbot_launched=False` plus the error text) and the Lead
persistence still proceeds. -/
theorem c6_no_session_bootstrap :
    ∀ (env : LeadEnv) (now : Int) (path : String) (p : EventPayload)
      (freshSid : String) (n : Int),
      entityForLookup (coerceEntity p.entity_id) = some n →
      env.getLatestSession = .ok none →
      env.kommoAvailable = true →
      ∃ tr, lead_handle env now path (.dict p) freshSid = .ok tr ∧
        ((∃ et, env.getEntityType = .ok et) →
          LAction.launchBot LANG_SELECT_BOT_ID ∈ tr) ∧
        (env.launchBot LANG_SELECT_BOT_ID = .ok () → env.createSessionWrite = .ok () →
          (∃ et, env.getEntityType = .ok et) →
          ∃ s, LAction.createSession s ∈ tr ∧ s.language = none ∧
            s.command = some Command.MAIN_MENU ∧ s.is_active = true ∧
            s.created_at = now ∧ s.expires_at = some (now + 24 * MICROS_PER_HOUR)) ∧
        (∀ e, bootErr env e →
          ∃ ld, LAction.saveLead ld ∈ tr ∧
            lookupAssoc ld.metadata "salesbot_launched" = some (.vbool false) ∧
            lookupAssoc ld.metadata "salesbot_error" = some (.vstr (pyErrStr e))) := by
  intro env now path p freshSid n he hs hk
  rcases hb : leadBootstrap env now n freshSid with ⟨bootTr, bootMd⟩
  obtain ⟨hLaunch, hCreate, hFailMeta⟩ := leadBootstrap_spec env now n freshSid
  rw [hb] at hLaunch hCreate hFailMeta
  dsimp only at hLaunch hCreate hFailMeta
  have hphase : leadSessionPhase env now n freshSid =
      (.sessionLookup n :: bootTr, bootMd, none) := by
    unfold leadSessionPhase
    rw [hs, hk]
    simp [hb]
  have hrun : lead_handle env now path (.dict p) freshSid =
      .ok ((.sessionLookup n :: bootTr) ++ [] ++
        leadTail env
          { source_path := path, created_at := now, updated_at := now,
            processed := false,
            metadata := dictUpdate (dictUpdate
              [("handler", .vstr "IncomingLeadHandler"), ("processed_at", .vnull)]
              bootMd) [] }
          now path) := by
    rw [lead_handle, he]
    dsimp only
    rw [hphase]
    dsimp only
    by_cases hm : extractMessages p ≠ "" <;> simp [hm]
  refine ⟨_, hrun, ?_, ?_, ?_⟩
  · intro het
    have := hLaunch het
    simp [List.mem_append]
    tauto
  · intro h1 h2 h3
    refine ⟨to_session_model
        { entity_id := some n, language := none, command := some .MAIN_MENU,
          expires_in_hours := some 24, metadata := [] } now freshSid,
      ?_, rfl, rfl, rfl, rfl, rfl⟩
    rw [hCreate h1 h2 h3]
    simp [List.mem_append]
  · intro e hbe
    have hmd : bootMd = bootstrapFailMeta e := hFailMeta e hbe
    obtain ⟨hsave, hproc, _⟩ := leadTail_props env
      { source_path := path, created_at := now, updated_at := now,
        processed := false,
        metadata := dictUpdate (dictUpdate
          [("handler", .vstr "IncomingLeadHandler"), ("processed_at", .vnull)]
          bootMd) [] } now path
    refine ⟨markAsProcessed
        { source_path := path, created_at := now, updated_at := now,
          processed := false,
          metadata := dictUpdate (dictUpdate
            [("handler", .vstr "IncomingLeadHandler"), ("processed_at", .vnull)]
            bootMd) [] } now, ?_, ?_, ?_⟩
    · simp only [List.mem_append]
      exact Or.inr hsave
    · rw [hmd]
      simp [markAsProcessed, dictUpdate, lookupAssoc, bootstrapFailMeta]
    · rw [hmd]
      simp [markAsProcessed, dictUpdate, lookupAssoc, bootstrapFailMeta]

/-- Counterexample to C6 as stated: with no Kommo service configured
(`kommo_service=None`, a constructor-legal configuration), a first-contact
event with entity id 500 and no active session triggers neither the
language-selection bot launch nor any session creation — the whole bootstrap
sits under `if self.kommo_service:`. -/
theorem c6_counterexample :
    ¬ (∀ tr, lead_handle noKommoLeadEnv 1000 "/incoming/l1"
          (.dict firstContactPayload) "sid-9" = .ok tr →
        (∃ b, LAction.launchBot b ∈ tr) ∨ (∃ s, LAction.createSession s ∈ tr)) := by
  intro h
  have hrun : lead_handle noKommoLeadEnv 1000 "/incoming/l1"
      (.dict firstContactPayload) "sid-9" = .ok noKommoTrace := by decide
  rcases h noKommoTrace hrun with ⟨b, hb⟩ | ⟨s, hs⟩
  · simp [noKommoTrace] at hb
  · simp [noKommoTrace] at hs

/-- Witness for C6 at the all-success first-contact run. -/
theorem c6_witness :
    ∃ tr, lead_handle allOkLeadEnv 1000 "/incoming/l1"
        (.dict firstContactPayload) "sid-9" = .ok tr ∧
      ((∃ et, allOkLeadEnv.getEntityType = .ok et) →
        LAction.launchBot LANG_SELECT_BOT_ID ∈ tr) ∧
      (allOkLeadEnv.launchBot LANG_SELECT_BOT_ID = .ok () →
        allOkLeadEnv.createSessionWrite = .ok () →
        (∃ et, allOkLeadEnv.getEntityType = .ok et) →
        ∃ s, LAction.createSession s ∈ tr ∧ s.language = none ∧
          s.command = some Command.MAIN_MENU ∧ s.is_active = true ∧
          s.created_at = 1000 ∧ s.expires_at = some (1000 + 24 * MICROS_PER_HOUR)) ∧
      (∀ e, bootErr allOkLeadEnv e →
        ∃ ld, LAction.saveLead ld ∈ tr ∧
          lookupAssoc ld.metadata "salesbot_launched" = some (.vbool false) ∧
          lookupAssoc ld.metadata "salesbot_error" = some (.vstr (pyErrStr e))) :=
  c6_no_session_bootstrap allOkLeadEnv 1000 "/incoming/l1" firstContactPayload
    "sid-9" 500 (by decide) rfl rfl

theorem msgAwaitPhase_error (env : MsgEnv) (session : Option SessionModel)
    (userLang userMessages : String) (e : PyErr)
    (h : msgAwaitPhase env session userLang userMessages = .error e) :
    env.updateSession = .error e := by
  unfold msgAwaitPhase at h
  repeat' (split at h)
  all_goals
    first
      | (rename_i heq
         exact absurd heq (get_message_ne_error _ _ _))
      | (rename_i heq
         injection h with h'
         rw [h'] at heq
         exact heq)
      | (exact absurd h (by intro hcon; cases hcon))
      | (dsimp only at h
         repeat' (split at h)
         all_goals
           first
             | (rename_i heq2
                exact absurd heq2 (get_message_ne_error _ _ _))
             | (rename_i heq2
                split at heq2 <;> exact absurd heq2 (get_message_ne_error _ _ _))
             | (exact absurd h (by intro hcon; cases hcon)))

theorem msgInitialPart_ne_error (env : MsgEnv) (userLang appState : String)
    (e : PyErr) : msgInitialPart env userLang appState ≠ .error e := by
  unfold msgInitialPart
  by_cases hs : appState = AppState.INITIAL.value
  · rw [if_pos hs]
    rcases hg : get_message .PASSPORT_PROMPT (.str userLang) with e' | m
    · exact absurd hg (get_message_ne_error _ _ _)
    · simp
  · rw [if_neg hs]; simp

/-- C5 (amended): for every event whose payload carries a truthy
`entity_id` (after string-to-int coercion) and whose run returns without a
propagated exception, the handler attempts the realtime-store deletion of
the triggering payload, whatever the state branch and the outcomes of
validation, lookup, sending and session update; and the only collaborator
whose exception `handle` propagates is the session update — in particular a
deletion failure is logged, never raised.  Events without a truthy
`entity_id` skip the deletion. -/
theorem c5_cleanup_under_entity :
    (∀ (env : MsgEnv) (path : String) (p : EventPayload) (tr : List MAction),
        (entityForLookup (coerceEntity p.entity_id)).isSome = true →
        msg_handle env path (.dict p) = .ok tr →
        MAction.deleteRealtime path ∈ tr) ∧
    (∀ (env : MsgEnv) (path : String) (data : PyData) (e : PyErr),
        msg_handle env path data = .error e → env.updateSession = .error e) := by
  constructor
  · intro env path p tr hent h
    rw [msg_handle] at h
    rcases he : entityForLookup (coerceEntity p.entity_id) with _ | n
    · rw [he] at hent; cases hent
    · rw [he] at h
      rw [msg_handle_entity] at h
      rcases hI : msgInitialPart env (userLangOf p) (appStateOf p) with e1 | t1
      · rw [hI] at h; cases h
      · rw [hI] at h
        rcases hA : msgAwaitingPart env
            (match env.getActiveSession with | .ok s => s | .error _ => none)
            (userLangOf p) (extractMessages p) (appStateOf p) with e2 | t2
        · rw [hA] at h; cases h
        · rw [hA] at h
          dsimp only at h
          injection h with h'
          rw [← h']
          simp
  · intro env path data e h
    cases data with
    | pynone => cases h
    | nondict => cases h
    | dict p =>
        rw [msg_handle] at h
        rcases he : entityForLookup (coerceEntity p.entity_id) with _ | n
        · rw [he] at h; cases h
        · rw [he] at h
          rw [msg_handle_entity] at h
          rcases hI : msgInitialPart env (userLangOf p) (appStateOf p) with e1 | t1
          · rw [hI] at h
            exact absurd hI (msgInitialPart_ne_error _ _ _ _)
          · rw [hI] at h
            rcases hA : msgAwaitingPart env
                (match env.getActiveSession with | .ok s => s | .error _ => none)
                (userLangOf p) (extractMessages p) (appStateOf p) with e2 | t2
            · rw [hA] at h
              injection h with h'
              rw [h'] at hA
              rw [msgAwaitingPart] at hA
              by_cases hs : appStateOf p = AppState.AWAITING_PASSPORT_NUMBER.value
              · rw [if_pos hs] at hA
                exact msgAwaitPhase_error env _ _ _ e hA
              · rw [if_neg hs] at hA
                cases hA
            · rw [hA] at h
              cases h

/-- Counterexample to C5 as stated: an event whose payload has no
`entity_id` (the message `"hello"` is present) runs to completion without
any deletion attempt — the cleanup block sits inside `if entity_id:`. -/
theorem c5_counterexample :
    ¬ (∀ tr, msg_handle allOkMsgEnv "/m" (.dict noEntityPayload) = .ok tr →
        MAction.deleteRealtime "/m" ∈ tr) := by
  intro h
  have := h [] (by decide)
  simp at this

/-- Witness for C5 at a concrete `INITIAL`-state run with entity id 7: the
deletion of the triggering payload is attempted. -/
theorem c5_witness :
    MAction.deleteRealtime "/m" ∈ initialStateTrace :=
  c5_cleanup_under_entity.1 allOkMsgEnv "/m" initialStatePayload initialStateTrace
    (by decide) (by decide)

end KommoCommand
